import Mathlib

/-!
Verification development for the visitor-parking manager and its rule-based
chatbot.  The definitions below are a shallow embedding of
`src/database_task.py` (class `DatabaseManager`) and `src/chatbot.py`
(class `ParkingChatbot` and its tool functions).  Python strings become
`String`, MongoDB documents become a `Visitor` structure, the collection
becomes a `List Visitor`, timestamps (`datetime.now()`) become a `Nat`
clock carried in the store state that strictly increases whenever the code
reads the current time, and the `(dict, bool)` results of the manager
become an `OpResult` structure (the dict key is `"detail"` on failure and
`"message"`/`"detail"`+`"visitor_id"` on success; only the payloads are
modelled).
-/

/-! ### Python string primitives used by the code -/

/-- `str.lower` restricted to ASCII, which is all the code relies on. -/
def lowerStr (s : String) : String := String.mk (s.data.map Char.toLower)

/-- `str.upper` restricted to ASCII. -/
def upperStr (s : String) : String := String.mk (s.data.map Char.toUpper)

/-- Whitespace recognised by Python's `str.split()` (the forms that occur). -/
def isWs (c : Char) : Bool :=
  c = ' ' || c = '\t' || c = '\n' || c = '\r' || c = '\x0b' || c = '\x0c'

/-- Helper for `splitWs`: accumulates the current word (reversed). -/
def splitWsAux : List Char → List Char → List String
  | [], acc => if acc.isEmpty then [] else [String.mk acc.reverse]
  | c :: cs, acc =>
    if isWs c then
      if acc.isEmpty then splitWsAux cs []
      else String.mk acc.reverse :: splitWsAux cs []
    else splitWsAux cs (c :: acc)

/-- Python `str.split()` with no argument: split on whitespace runs,
dropping empty pieces. -/
def splitWs (s : String) : List String := splitWsAux s.data []

/-- Does `pre` occur as a prefix of `l`? -/
def prefixAt : List Char → List Char → Bool
  | [], _ => true
  | _ :: _, [] => false
  | a :: as, b :: bs => a == b && prefixAt as bs

/-- Does `needle` occur as a contiguous sublist of `hay`? -/
def hasSub (needle : List Char) : List Char → Bool
  | [] => prefixAt needle []
  | l@(_ :: t) => prefixAt needle l || hasSub needle t

/-- Python `needle in hay` on strings (substring containment). -/
def strContains (hay needle : String) : Bool := hasSub needle.data hay.data

/-- Python `str.capitalize()`: first character upper-cased, the rest
lower-cased. -/
def pyCapitalize (s : String) : String :=
  match s.data with
  | [] => ""
  | c :: cs => String.mk (c.toUpper :: cs.map Char.toLower)

/-- Python `str.isdigit()` for the ASCII strings that occur here: non-empty
and all characters are digits. -/
def pyIsDigit (s : String) : Bool := !s.data.isEmpty && s.data.all Char.isDigit

/-! ### Intent classifier (`ParkingChatbot._classify_intent`) -/

/-- Trigger phrases for the `how_to` intent. -/
def howToPhrases : List String :=
  ["how can i", "how do i", "how to", "what are the ways",
   "tell me how", "explain how", "show me how"]

/-- Trigger words for the `stats` intent. -/
def statsWords : List String :=
  ["how many", "count", "stats", "statistics", "occupancy",
   "available", "free", "spots", "capacity"]

/-- Trigger words for the `summary` intent. -/
def summaryWords : List String :=
  ["status", "summary", "overview", "situation", "full", "busy"]

/-- Trigger phrases for the `search` intent. -/
def searchPhrases : List String :=
  ["search for", "find visitor", "locate visitor", "look for visitor",
   "where is", "is there a visitor"]

/-- The `exclude` stop-word set used when extracting a search name. -/
def excludeWords : List String :=
  ["search", "find", "for", "visitor", "named", "called",
   "the", "a", "an", "is", "there", "where", "who", "locate",
   "how", "can", "i", "do", "to", "tell", "me", "explain", "show"]

/-- Trigger words for the `unit` intent. -/
def unitWords : List String := ["unit", "apartment", "flat"]

/-- Trigger words for the `list` intent. -/
def listWords : List String :=
  ["list", "show all", "display", "view all", "see all", "visitors"]

/-- Trigger words for the `greeting` intent. -/
def greetingWords : List String := ["hello", "hi", "hey", "greetings"]

/-- Trigger words for the `help` intent. -/
def helpWords : List String := ["help", "what can you", "how to use"]

/-- `any(phrase in ql for phrase in ws)`. -/
def anyContains (ql : String) (ws : List String) : Bool :=
  ws.any (fun w => strContains ql w)

/-- Search-name extraction: `[w.capitalize() for w in query.split() if
len(w) > 2 and w.lower() not in exclude and not w.isdigit()]`, then the
first element if the list is non-empty. -/
def searchParam (query : String) : Option String :=
  (((splitWs query).filter
      (fun w => w.length > 2 && !(excludeWords.contains (lowerStr w))
        && !(pyIsDigit w))).map pyCapitalize).head?

/-- One attempt of the regex `[A-Z]-?\d+-?\d*` at the head of `cs`,
with Python's backtracking semantics: the first `-?` consumes a dash only
when a digit follows (otherwise `\d+` could not match), the second `-?`
always consumes an available dash because the trailing `\d*` may be empty.
Returns the matched characters and the remaining input. -/
def unitMatchAt (cs : List Char) : Option (List Char × List Char) :=
  match cs with
  | [] => none
  | c :: rest =>
    if 'A' ≤ c && c ≤ 'Z' then
      let (dash1, rest1) :=
        match rest with
        | '-' :: r =>
          if (match r with | d :: _ => d.isDigit | [] => false)
          then ([('-' : Char)], r) else (([] : List Char), rest)
        | _ => (([] : List Char), rest)
      let (ds1, rest2) := rest1.span Char.isDigit
      if ds1.isEmpty then none
      else
        let (dash2, rest3) :=
          match rest2 with
          | '-' :: r => ([('-' : Char)], r)
          | _ => (([] : List Char), rest2)
        let (ds2, rest4) := rest3.span Char.isDigit
        some (c :: dash1 ++ ds1 ++ dash2 ++ ds2, rest4)
    else none

/-- Leftmost match of `re.findall(r'[A-Z]-?\d+-?\d*', ·)`, i.e. the
element `matches[0]` the code reads when the list is non-empty. -/
def findUnitMatch : List Char → Option String
  | [] => none
  | l@(_ :: t) =>
    match unitMatchAt l with
    | some (m, _) => some (String.mk m)
    | none => findUnitMatch t

/-- Unit-number extraction: first regex match against `query.upper()`,
falling back to `[w.upper() for w in query.split() if any(c.isdigit()...)
and any(c.isalpha()...)][0]` when the regex finds nothing. -/
def unitParam (query : String) : Option String :=
  match findUnitMatch (upperStr query).data with
  | some m => some m
  | none =>
    (((splitWs query).filter
        (fun w => w.data.any Char.isDigit && w.data.any Char.isAlpha)).map
      upperStr).head?

/-- `ParkingChatbot._classify_intent`: ordered substring rules, first match
wins; returns `(intent, extracted_data)`.  The Python `if names: return
('search', names[0]); return ('search', None)` is the `Option` head already
computed by `searchParam`/`unitParam`. -/
def classify_intent (query : String) : String × Option String :=
  let ql := lowerStr query
  if anyContains ql howToPhrases then ("how_to", none)
  else if anyContains ql statsWords then ("stats", none)
  else if anyContains ql summaryWords then ("summary", none)
  else if anyContains ql searchPhrases then ("search", searchParam query)
  else if anyContains ql unitWords then ("unit", unitParam query)
  else if anyContains ql listWords then ("list", none)
  else if anyContains ql greetingWords then ("greeting", none)
  else if anyContains ql helpWords then ("help", none)
  else ("general", none)


/-! ### Visitor records and the store (`DatabaseManager`) -/

/-- One document of the `visitors` collection.  `vid` is the `_id` the
store assigns at insertion (`str(result.inserted_id)` is its transport
encoding and is not modelled), `created_at` and `last_updated` are clock
values, `last_updated` is absent until the first status update. -/
structure Visitor where
  vid : Nat
  name : String
  ic_number : String
  license_plate : String
  unit_number : String
  created_at : Nat
  status : String
  last_updated : Option Nat
deriving Repr, DecidableEq

/-- The `(dict, bool)` pair every manager operation returns: the message
under the dict's `"detail"`/`"message"` key, the `"visitor_id"` payload
when present, and the boolean success flag. -/
structure OpResult where
  detail : String
  visitor_id : Option Nat
  success : Bool
deriving Repr, DecidableEq

/-- Store state: the collection, the next `_id` to assign, and a clock
that advances whenever the code reads `datetime.now()` (consecutive reads
of a microsecond wall clock are distinct, which the clock models as
strict increase). -/
structure DB where
  visitors : List Visitor
  nextId : Nat
  clock : Nat
deriving Repr, DecidableEq

/-- The empty store. -/
def dbInit : DB := ⟨[], 0, 0⟩

/-- The pre-check `find_one({"$or": [{"ic_number": ic.upper()},
{"license_plate": plate.upper()}]})`: first document matching either
normalized field. -/
def findDup (docs : List Visitor) (icU plU : String) : Option Visitor :=
  docs.find? (fun r => r.ic_number == icU || r.license_plate == plU)

/-- `insert_one` against the two unique indexes (`ic_number`,
`license_plate`) declared in `init_database`: the insert raises a
duplicate-key error when an existing document equals the new one on
either indexed field.  The error string stands for `str(e)` of the
pymongo exception. -/
def insert_one (docs : List Visitor) (v : Visitor) : Except String (List Visitor) :=
  if docs.any (fun r => r.ic_number == v.ic_number || r.license_plate == v.license_plate)
  then Except.error "E11000 duplicate key error collection: parking_manager_db.visitors"
  else Except.ok (docs ++ [v])

/-- The document `create_visitor` builds on the no-collision path. -/
def mkVisitor (nid : Nat) (name ic plate unit : String) (clk : Nat) : Visitor :=
  ⟨nid, name, upperStr ic, upperStr plate, unit, clk, "active", none⟩

/-- `DatabaseManager.create_visitor`, parameterized over two snapshots of
the collection: `pre` is what the pre-check reads and `ins` is what the
insert runs against.  A concurrent writer may change the collection
between the two calls; the sequential manager is the instance
`pre = ins`.  Returns the `(dict, bool)` result and the collection after
the insert (unchanged on every failure path, including the `except`
branch that turns a store exception into `"Database error: " + str(e)`).
-/
def create_visitor_core (pre ins : List Visitor) (nid clk : Nat)
    (name ic plate unit : String) : OpResult × List Visitor :=
  if ic == "" || plate == "" then
    (⟨"IC number and license plate are required", none, false⟩, ins)
  else
    match findDup pre (upperStr ic) (upperStr plate) with
    | some existing =>
      let duplicate_field :=
        if existing.ic_number == upperStr ic then "IC number" else "license plate"
      (⟨"Visitor with this " ++ duplicate_field ++ " already exists", none, false⟩, ins)
    | none =>
      match insert_one ins (mkVisitor nid name ic plate unit clk) with
      | Except.ok docs => (⟨"Visitor created successfully", some nid, true⟩, docs)
      | Except.error e => (⟨"Database error: " ++ e, none, false⟩, ins)

/-- Sequential `create_visitor`: pre-check and insert see the same
collection.  On success the store assigns the next `_id` and the clock
advances past the consumed `datetime.now()`. -/
def DB.create_visitor (s : DB) (name ic plate unit : String) : OpResult × DB :=
  let (res, docs) := create_visitor_core s.visitors s.visitors s.nextId s.clock name ic plate unit
  (res, if res.success then ⟨docs, s.nextId + 1, s.clock + 1⟩ else ⟨docs, s.nextId, s.clock⟩)

/-- The `$set` document of `update_visitor_status` applied to one record:
status and `last_updated` are rewritten together, unconditionally. -/
def applyStatus (oid : Nat) (st : String) (now : Nat) (x : Visitor) : Visitor :=
  if x.vid == oid then { x with status := st, last_updated := some now } else x

/-- `DatabaseManager.update_visitor_status`.  `none` models a string
failing `ObjectId.is_valid`; `some oid` a well-formed id.  `update_one`
reports `modified_count`, the number of matched documents actually
changed by the `$set`; the manager returns success iff it is positive.
No validation of `new_status` is performed. -/
def DB.update_visitor_status (s : DB) (visitor_id : Option Nat) (new_status : String) :
    OpResult × DB :=
  match visitor_id with
  | none => (⟨"Invalid visitor ID format.", none, false⟩, s)
  | some oid =>
    let modified := s.visitors.countP
      (fun x => x.vid == oid && !(x.status == new_status && x.last_updated == some s.clock))
    let newDocs := s.visitors.map (applyStatus oid new_status s.clock)
    if modified > 0 then
      (⟨"Visitor status updated successfully", none, true⟩, ⟨newDocs, s.nextId, s.clock + 1⟩)
    else
      (⟨"Visitor not found or status already set.", none, false⟩, ⟨newDocs, s.nextId, s.clock + 1⟩)

/-- `DatabaseManager.delete_visitor`.  `delete_one` removes the first
matching document and reports whether one was deleted. -/
def DB.delete_visitor (s : DB) (visitor_id : Option Nat) : OpResult × DB :=
  match visitor_id with
  | none => (⟨"Invalid visitor ID format.", none, false⟩, s)
  | some oid =>
    if s.visitors.any (fun x => x.vid == oid) then
      (⟨"Visitor deleted successfully", none, true⟩,
       ⟨s.visitors.eraseP (fun x => x.vid == oid), s.nextId, s.clock⟩)
    else
      (⟨"Visitor not found.", none, false⟩, s)

/-- States reachable through the manager's operations from an empty
store. -/
inductive Reachable : DB → Prop where
  | init : Reachable dbInit
  | create (s : DB) (name ic plate unit : String) :
      Reachable s → Reachable (s.create_visitor name ic plate unit).2
  | update (s : DB) (vid : Option Nat) (st : String) :
      Reachable s → Reachable (s.update_visitor_status vid st).2
  | del (s : DB) (vid : Option Nat) :
      Reachable s → Reachable (s.delete_visitor vid).2

/-- No two documents of the collection agree on the normalized
`ic_number` or on the normalized `license_plate`. -/
def uniqueFields (vs : List Visitor) : Prop :=
  vs.Pairwise (fun a b => a.ic_number ≠ b.ic_number ∧ a.license_plate ≠ b.license_plate)

/-- Store invariant: unique normalized fields, unique ids, ids below the
allocation counter, and stored timestamps strictly below the clock. -/
def StoreInv (s : DB) : Prop :=
  uniqueFields s.visitors
  ∧ s.visitors.Pairwise (fun a b => a.vid ≠ b.vid)
  ∧ (∀ r ∈ s.visitors, r.vid < s.nextId)
  ∧ (∀ r ∈ s.visitors, ∀ t, r.last_updated = some t → t < s.clock)

/-! ### Tool functions over the store (`chatbot.py`) -/

/-- The four values `count_active_visitors` computes before formatting:
`active_count` (falling back from `"active"` to `"Active"` when the first
count is zero), `left_count` (same fallback), `total_count`, and
`available = total_spots - active_count` with `total_spots = 105`.
The unused float `occupancy_rate` is not modelled. -/
def countStats (vs : List Visitor) : Nat × Nat × Nat × Int :=
  let a := vs.countP (fun v => v.status == "active")
  let active_count := if a = 0 then vs.countP (fun v => v.status == "Active") else a
  let l := vs.countP (fun v => v.status == "left")
  let left_count := if l = 0 then vs.countP (fun v => v.status == "Left") else l
  let total_count := vs.length
  let available : Int := 105 - (active_count : Int)
  (active_count, left_count, total_count, available)

/-- The string the `count_active_visitors` tool returns (the computed
`left_count` is not part of the rendered message). -/
def count_active_visitors (vs : List Visitor) : String :=
  let r := countStats vs
  "Active visitors: " ++ toString r.1 ++ "\nTotal registered: " ++ toString r.2.2.1
    ++ "\nAvailable spots: " ++ toString r.2.2.2 ++ "/105"

/-- The `status` string chosen by `get_parking_summary` from the computed
availability. -/
def summaryStatus (available : Int) : String :=
  if available = 0 then "🔴 PARKING FULL"
  else if available < 20 then "🟡 LOW AVAILABILITY"
  else "🟢 PARKING AVAILABLE"

/-- The `get_parking_summary` tool: `active` counts documents whose status
matches `^active$` case-insensitively, `available = 105 - active`. -/
def get_parking_summary (active : Nat) : String :=
  let available : Int := 105 - (active : Int)
  summaryStatus available ++ "\n" ++ toString active ++ " cars parked, "
    ++ toString available ++ " spots available"

/-! ### Response composer (`ParkingChatbot.get_response`) -/

/-- Behaviour of the five database tools as seen by `get_response`: each
`invoke` either returns a string or raises (`Except.error` carries
`str(e)`). -/
structure Tools where
  visitors_data_from_db : String → Except String String
  count_active_visitors : String → Except String String
  search_visitor_by_name : String → Except String String
  get_visitors_by_unit : String → Except String String
  get_parking_summary : String → Except String String

/-- The templated greeting reply. -/
def greetingReply : String :=
  "👋 Hello! I'm your parking assistant. I can help you with:\n• Checking parking availability\n• Finding specific visitors\n• Viewing visitor lists\n• Searching by unit number\n\nWhat would you like to know?"

/-- The templated help reply. -/
def helpReply : String :=
  "🤖 **How I can help you:**\n\n📊 **Check Statistics:**\n• \"How many visitors are parked?\"\n• \"What's the parking status?\"\n• \"How many spots available?\"\n\n🔍 **Search Visitors:**\n• \"Find visitor John\"\n• \"Search for visitor named Alice\"\n• \"Is there a visitor called Mike?\"\n\n📋 **View Lists:**\n• \"Show all visitors\"\n• \"List all parked cars\"\n\n🏢 **Search by Unit:**\n• \"Show visitors for unit B-1-01\"\n• \"Who visited unit A-74?\"\n\nJust ask naturally!"

/-- The `how_to` reply for search-related questions. -/
def howToSearchReply : String :=
  "🔍 **How to Search for Visitors:**\n\nYou can search for visitors in several ways:\n\n1️⃣ **By Name:** Ask me \"Find visitor [Name]\" or \"Search for [Name]\"\n   - Example: \"Find visitor John\"\n\n2️⃣ **By License Plate:** Go to the \"View All Visitors\" tab and use the search bar at the top\n\n3️⃣ **By Unit Number:** Ask me \"Show visitors for unit [Unit#]\"\n   - Example: \"Show visitors for unit B-1-01\"\n\nJust ask me naturally and I'll help you find who you're looking for! 😊"

/-- The `how_to` reply for unit-related questions. -/
def howToUnitReply : String :=
  "🏢 **How to Find Visitors by Unit:**\n\nTo find all visitors for a specific unit, you can:\n\n1️⃣ **Ask me directly:** \"Show visitors for unit [Unit Number]\"\n   - Example: \"Show visitors for unit B-1-01\"\n   - Example: \"Who visited unit A-74?\"\n\n2️⃣ **Use the View tab:** Go to \"View All Visitors\" and use the \"Unit Number\" filter dropdown\n\nI'll show you the name, license plate, and status of all visitors for that unit! 🚗"

/-- The `how_to` reply for all other instructional questions. -/
def howToGeneralReply : String :=
  "💡 **General Instructions:**\n\nI can help you with:\n• **Searching visitors** - Ask \"How can I search for visitors?\"\n• **Finding by unit** - Ask \"How to find visitors by unit?\"\n• **Checking availability** - Ask \"How many spots are available?\"\n• **Viewing lists** - Just say \"Show all visitors\"\n\nWhat would you like to know? 😊"

/-- The fixed reply returned whenever `is_available` is false. -/
def unavailableReply : String :=
  "⚠️ Chatbot unavailable. Please check GOOGLE_API_KEY in .env file."

/-- The reply when a `search` query carries no extractable name. -/
def searchPromptReply : String :=
  "🔍 Please specify a visitor name. Example: 'Find visitor John'"

/-- The reply when a `unit` query carries no extractable unit number. -/
def unitPromptReply : String :=
  "🏢 Please specify a unit number. Example: 'Show visitors for unit B-1-01'"

/-- The fallback context for the `general` intent. -/
def generalContext : String :=
  "I can help with visitor info, parking stats, and searching. Please ask about visitors, parking availability, or specific units."

/-- The f-string prompt handed to `llm.invoke`. -/
def buildPrompt (context query : String) : String :=
  "You are a friendly parking management assistant. Respond naturally and helpfully.\n\nIMPORTANT: When you have visitor data, you MUST display it completely. Never summarize or say \"followed by...\" - always show the full list.\n\nContext/Data: "
    ++ context ++ "\n\nUser Question: " ++ query
    ++ "\n\nInstructions:\n- If context contains visitor information, display ALL of it in a clear, readable format\n- Use bullet points or numbered lists for multiple visitors\n- Include all details provided (name, IC, plate, unit, status)\n- Be concise but COMPLETE - never truncate or summarize the data\n- If no data is available, say so clearly\n\nProvide your response:"

/-- Propagate a tool failure, otherwise continue with its output. -/
def withContext (c : Except String String) (k : String → Except String String) :
    Except String String :=
  match c with
  | Except.error e => Except.error e
  | Except.ok v => k v

/-- The body of the `try:` block of `get_response`: classify, answer
templated intents directly, call one tool plus the model otherwise.
`Except.error` is an exception escaping the block. -/
def get_response_try (tb : Tools) (llm : String → Except String String)
    (query : String) : Except String String :=
  let r := classify_intent query
  let intent := r.1
  let extracted := r.2
  if intent == "greeting" then Except.ok greetingReply
  else if intent == "help" then Except.ok helpReply
  else if intent == "how_to" then
    if strContains (lowerStr query) "search" || strContains (lowerStr query) "find" then
      Except.ok howToSearchReply
    else if strContains (lowerStr query) "unit" then Except.ok howToUnitReply
    else Except.ok howToGeneralReply
  else if intent == "stats" then
    withContext (tb.count_active_visitors "") (fun ctx => llm (buildPrompt ctx query))
  else if intent == "summary" then
    withContext (tb.get_parking_summary "") (fun ctx => llm (buildPrompt ctx query))
  else if intent == "search" then
    match extracted with
    | some d => withContext (tb.search_visitor_by_name d) (fun ctx => llm (buildPrompt ctx query))
    | none => Except.ok searchPromptReply
  else if intent == "unit" then
    match extracted with
    | some d => withContext (tb.get_visitors_by_unit d) (fun ctx => llm (buildPrompt ctx query))
    | none => Except.ok unitPromptReply
  else if intent == "list" then
    withContext (tb.visitors_data_from_db "") (fun ctx => llm (buildPrompt ctx query))
  else llm (buildPrompt generalContext query)

/-- `ParkingChatbot.get_response`: the unavailability guard runs before
everything else, and the `except Exception` handler turns any escaping
exception into `"Error: " + str(e)`. -/
def get_response (avail : Bool) (tb : Tools) (llm : String → Except String String)
    (query : String) : String :=
  if !avail then unavailableReply
  else
    match get_response_try tb llm query with
    | Except.ok r => r
    | Except.error e => "Error: " ++ e

/-- Tools that always answer with the empty string (a stub behaviour used
to instantiate theorems at concrete inputs). -/
def stubTools : Tools :=
  ⟨fun _ => Except.ok "", fun _ => Except.ok "", fun _ => Except.ok "",
   fun _ => Except.ok "", fun _ => Except.ok ""⟩

/-- A model backend whose every call raises. -/
def errLlm : String → Except String String := fun _ => Except.error "boom"

/-- A model backend that echoes its prompt. -/
def okLlm : String → Except String String := fun p => Except.ok p

/-- Modelled from the spec: the claim's description of search-parameter
extraction, "first capitalized token from the query not in a stop-word
set and not purely numeric; if none found, parameter is absent" — with no
condition on the token's length.  Compared against `searchParam`, the
extraction the code performs. -/
def claimSearchParam (query : String) : Option String :=
  (((splitWs query).filter
      (fun w => !(excludeWords.contains (lowerStr w)) && !(pyIsDigit w))).map
    pyCapitalize).head?

/-! ### Concrete states used to instantiate the theorems -/

/-- The record created by registering Alice in the empty store. -/
def vAlice : Visitor :=
  ⟨0, "Alice", "901231145678", "JOM1234", "B-1-01", 0, "active", none⟩

/-- The store after registering Alice in the empty store. -/
def db1 : DB := ⟨[vAlice], 1, 1⟩

/-- A store with three active and two left visitors. -/
def statsStore : List Visitor :=
  [⟨0, "A", "IC0", "P0", "U1", 0, "active", none⟩,
   ⟨1, "B", "IC1", "P1", "U1", 1, "active", none⟩,
   ⟨2, "C", "IC2", "P2", "U2", 2, "active", none⟩,
   ⟨3, "D", "IC3", "P3", "U2", 3, "left", some 4⟩,
   ⟨4, "E", "IC4", "P4", "U3", 4, "left", some 5⟩]


/-! ### Helper lemmas -/

/-- The pre-check finds nothing iff no document matches either normalized
field. -/
theorem findDup_none_iff (vs : List Visitor) (icU plU : String) :
    findDup vs icU plU = none ↔
      ∀ r ∈ vs, r.ic_number ≠ icU ∧ r.license_plate ≠ plU := by
  simp [findDup, List.find?_eq_none, not_or]

/-- `applyStatus` leaves `ic_number` unchanged. -/
theorem applyStatus_ic (oid : Nat) (st : String) (now : Nat) (x : Visitor) :
    (applyStatus oid st now x).ic_number = x.ic_number := by
  unfold applyStatus; split <;> rfl

/-- `applyStatus` leaves `license_plate` unchanged. -/
theorem applyStatus_plate (oid : Nat) (st : String) (now : Nat) (x : Visitor) :
    (applyStatus oid st now x).license_plate = x.license_plate := by
  unfold applyStatus; split <;> rfl

/-- `applyStatus` leaves `vid` unchanged. -/
theorem applyStatus_vid (oid : Nat) (st : String) (now : Nat) (x : Visitor) :
    (applyStatus oid st now x).vid = x.vid := by
  unfold applyStatus; split <;> rfl

/-- Successful registration: validation passed and the pre-check found
nothing, so the upper-cased record is appended with `status = "active"`. -/
theorem create_visitor_fresh (s : DB) (name ic plate unit : String)
    (h1 : ic ≠ "") (h2 : plate ≠ "")
    (hd : findDup s.visitors (upperStr ic) (upperStr plate) = none) :
    s.create_visitor name ic plate unit =
      (⟨"Visitor created successfully", some s.nextId, true⟩,
       ⟨s.visitors ++ [mkVisitor s.nextId name ic plate unit s.clock],
        s.nextId + 1, s.clock + 1⟩) := by
  have hv := (findDup_none_iff s.visitors (upperStr ic) (upperStr plate)).1 hd
  have hins : (s.visitors.any (fun r =>
      r.ic_number == (mkVisitor s.nextId name ic plate unit s.clock).ic_number
        || r.license_plate == (mkVisitor s.nextId name ic plate unit s.clock).license_plate))
      = false := by
    rw [Bool.eq_false_iff]
    intro hany
    rcases List.any_eq_true.1 hany with ⟨x, hx, hpx⟩
    have hpx' : x.ic_number = (mkVisitor s.nextId name ic plate unit s.clock).ic_number
        ∨ x.license_plate = (mkVisitor s.nextId name ic plate unit s.clock).license_plate := by
      simpa using hpx
    rcases hpx' with h | h
    · exact (hv x hx).1 (by simpa [mkVisitor] using h)
    · exact (hv x hx).2 (by simpa [mkVisitor] using h)
  simp [DB.create_visitor, create_visitor_core, hd, insert_one, hins, h1, h2]

/-- Failed registration (pre-check hit): the reported field is the
identity number whenever the found record collides on it, and the store
is unchanged. -/
theorem create_visitor_dup (s : DB) (name ic plate unit : String) (r : Visitor)
    (h1 : ic ≠ "") (h2 : plate ≠ "")
    (hd : findDup s.visitors (upperStr ic) (upperStr plate) = some r) :
    s.create_visitor name ic plate unit =
      (⟨"Visitor with this "
          ++ (if r.ic_number == upperStr ic then "IC number" else "license plate")
          ++ " already exists", none, false⟩, s) := by
  simp [DB.create_visitor, create_visitor_core, hd, h1, h2]

/-- Appending a record that collides with nothing preserves field
uniqueness. -/
theorem uniqueFields_append (vs : List Visitor) (v : Visitor)
    (hu : uniqueFields vs)
    (hv : ∀ r ∈ vs, r.ic_number ≠ v.ic_number ∧ r.license_plate ≠ v.license_plate) :
    uniqueFields (vs ++ [v]) := by
  unfold uniqueFields at *
  rw [List.pairwise_append]
  exact ⟨hu, List.pairwise_singleton _ _, by simpa using hv⟩

/-- Registration preserves the store invariant. -/
theorem storeInv_create (s : DB) (hI : StoreInv s) (name ic plate unit : String) :
    StoreInv (s.create_visitor name ic plate unit).2 := by
  obtain ⟨hu, hvid, hlt, hts⟩ := hI
  cases hcond : (ic == "" || plate == "") with
  | true =>
    simpa [DB.create_visitor, create_visitor_core, hcond] using ⟨hu, hvid, hlt, hts⟩
  | false =>
    have h1 : ic ≠ "" := by
      intro h; subst h; simp at hcond
    have h2 : plate ≠ "" := by
      intro h; subst h; simp at hcond
    cases hd : findDup s.visitors (upperStr ic) (upperStr plate) with
    | some r =>
      simpa [DB.create_visitor, create_visitor_core, hd, h1, h2] using ⟨hu, hvid, hlt, hts⟩
    | none =>
      have hv := (findDup_none_iff s.visitors (upperStr ic) (upperStr plate)).1 hd
      have hgoal : (s.create_visitor name ic plate unit).2 =
          ⟨s.visitors ++ [mkVisitor s.nextId name ic plate unit s.clock],
           s.nextId + 1, s.clock + 1⟩ := by
        rw [create_visitor_fresh s name ic plate unit h1 h2 hd]
      rw [hgoal]
      refine ⟨?_, ?_, ?_, ?_⟩
      · exact uniqueFields_append _ _ hu (by simpa [mkVisitor] using hv)
      · rw [List.pairwise_append]
        refine ⟨hvid, List.pairwise_singleton _ _, ?_⟩
        intro a ha b hb
        have hb' : b = mkVisitor s.nextId name ic plate unit s.clock := by simpa using hb
        subst hb'
        have := hlt a ha
        simp only [mkVisitor]
        omega
      · intro r hr
        simp only [List.mem_append, List.mem_singleton] at hr
        rcases hr with h | h
        · have := hlt r h; dsimp only; omega
        · subst h; simp [mkVisitor]
      · intro r hr t ht
        simp only [List.mem_append, List.mem_singleton] at hr
        rcases hr with h | h
        · have := hts r h t ht; dsimp only; omega
        · subst h; simp [mkVisitor] at ht

/-- The post-state of a well-formed-id status update, common to both
result branches. -/
theorem update_state (s : DB) (oid : Nat) (st : String) :
    (s.update_visitor_status (some oid) st).2 =
      ⟨s.visitors.map (applyStatus oid st s.clock), s.nextId, s.clock + 1⟩ := by
  dsimp only [DB.update_visitor_status]
  split <;> rfl

/-- A status update preserves the store invariant. -/
theorem storeInv_update (s : DB) (hI : StoreInv s) (vid : Option Nat) (st : String) :
    StoreInv (s.update_visitor_status vid st).2 := by
  obtain ⟨hu, hvid, hlt, hts⟩ := hI
  cases vid with
  | none => exact ⟨hu, hvid, hlt, hts⟩
  | some oid =>
    rw [update_state]
    refine ⟨?_, ?_, ?_, ?_⟩
    · exact List.Pairwise.map _
        (fun a b hab => by
          simp only [applyStatus_ic, applyStatus_plate]
          exact hab) hu
    · exact List.Pairwise.map _
        (fun a b hab => by simp only [applyStatus_vid]; exact hab) hvid
    · intro r hr
      rcases List.mem_map.1 hr with ⟨x, hx, hxr⟩
      subst hxr
      rw [applyStatus_vid]
      exact hlt x hx
    · intro r hr t ht
      rcases List.mem_map.1 hr with ⟨x, hx, hxr⟩
      subst hxr
      unfold applyStatus at ht
      by_cases hb : (x.vid == oid) = true
      · rw [if_pos hb] at ht
        have hteq : s.clock = t := by simpa using ht
        dsimp only
        omega
      · rw [if_neg hb] at ht
        have := hts x hx t ht
        dsimp only
        omega

/-- Deletion preserves the store invariant. -/
theorem storeInv_delete (s : DB) (hI : StoreInv s) (vid : Option Nat) :
    StoreInv (s.delete_visitor vid).2 := by
  obtain ⟨hu, hvid, hlt, hts⟩ := hI
  cases vid with
  | none => exact ⟨hu, hvid, hlt, hts⟩
  | some oid =>
    dsimp only [DB.delete_visitor]
    split
    · have hsub : (s.visitors.eraseP (fun x => x.vid == oid)).Sublist s.visitors :=
        List.eraseP_sublist _
      refine ⟨hu.sublist hsub, hvid.sublist hsub, ?_, ?_⟩
      · intro r hr; exact hlt r (hsub.mem hr)
      · intro r hr t ht; exact hts r (hsub.mem hr) t ht
    · exact ⟨hu, hvid, hlt, hts⟩

/-- Every state reachable through the manager's operations satisfies the
store invariant. -/
theorem reachable_storeInv (s : DB) (h : Reachable s) : StoreInv s := by
  induction h with
  | init =>
    refine ⟨List.Pairwise.nil, List.Pairwise.nil, ?_, ?_⟩ <;> intro r hr <;> cases hr
  | create s name ic plate unit _ ih => exact storeInv_create s ih name ic plate unit
  | update s vid st _ ih => exact storeInv_update s ih vid st
  | del s vid _ ih => exact storeInv_delete s ih vid

/-- A status update targeting an existing record always reports success:
the `$set` rewrites `last_updated` to the current clock, which no stored
document can already hold, so `modified_count` is positive. -/
theorem update_exists_result (s : DB)
    (hc : ∀ r ∈ s.visitors, ∀ t, r.last_updated = some t → t < s.clock)
    (r : Visitor) (hr : r ∈ s.visitors) (st : String) :
    (s.update_visitor_status (some r.vid) st).1 =
      ⟨"Visitor status updated successfully", none, true⟩ := by
  have hpred : (fun x => x.vid == r.vid
      && !(x.status == st && x.last_updated == some s.clock)) r = true := by
    have hlu : (r.last_updated == some s.clock) = false := by
      cases hlu : r.last_updated with
      | none => rfl
      | some t =>
        have := hc r hr t hlu
        simp only [beq_eq_false_iff_ne, ne_eq, Option.some.injEq]
        omega
    simp [hlu]
  have hpos : 0 < s.visitors.countP (fun x => x.vid == r.vid
      && !(x.status == st && x.last_updated == some s.clock)) :=
    List.countP_pos_iff.2 ⟨r, hr, hpred⟩
  unfold DB.update_visitor_status
  simp only [hpos, if_pos]

/-- A status update whose id matches no document reports the
not-found/no-op failure. -/
theorem update_missing_result (s : DB) (oid : Nat) (st : String)
    (h : ∀ x ∈ s.visitors, x.vid ≠ oid) :
    (s.update_visitor_status (some oid) st).1 =
      ⟨"Visitor not found or status already set.", none, false⟩ := by
  have hzero : s.visitors.countP (fun x => x.vid == oid
      && !(x.status == st && x.last_updated == some s.clock)) = 0 := by
    rw [List.countP_eq_zero]
    intro x hx
    simp [h x hx]
  dsimp only [DB.update_visitor_status]
  rw [hzero]
  simp

/-- `db1` is reachable: it is the store after registering Alice (with a
lower-case plate, upper-cased on write) in the empty store. -/
theorem db1_reachable : Reachable db1 := by
  have h := Reachable.create dbInit "Alice" "901231145678" "jom1234" "B-1-01" Reachable.init
  have e : (dbInit.create_visitor "Alice" "901231145678" "jom1234" "B-1-01").2 = db1 := by
    decide
  rw [e] at h
  exact h

/-- C1: in every reachable store no two surviving records share a
normalized `ic_number` or `license_plate`; a `Register` whose pre-check
finds an existing record fails with the duplicate error naming the
colliding field (`"IC number"` whenever the found record collides on it,
`"license plate"` otherwise) and leaves the store unchanged; with no
pre-check hit it appends the record with both fields upper-cased and
`status = "active"`, and uniqueness still holds afterwards. -/
theorem claim_register_uniqueness (s : DB) (h : Reachable s)
    (name ic plate unit : String) :
    uniqueFields s.visitors
    ∧ (ic ≠ "" → plate ≠ "" →
        (∀ r, findDup s.visitors (upperStr ic) (upperStr plate) = some r →
          s.create_visitor name ic plate unit =
            (⟨"Visitor with this "
                ++ (if r.ic_number == upperStr ic then "IC number" else "license plate")
                ++ " already exists", none, false⟩, s))
        ∧ (findDup s.visitors (upperStr ic) (upperStr plate) = none →
            s.create_visitor name ic plate unit =
              (⟨"Visitor created successfully", some s.nextId, true⟩,
               ⟨s.visitors ++ [mkVisitor s.nextId name ic plate unit s.clock],
                s.nextId + 1, s.clock + 1⟩)
            ∧ uniqueFields (s.create_visitor name ic plate unit).2.visitors)) := by
  have hI := reachable_storeInv s h
  refine ⟨hI.1, fun h1 h2 =>
    ⟨fun r hr => create_visitor_dup s name ic plate unit r h1 h2 hr,
     fun hd => ⟨create_visitor_fresh s name ic plate unit h1 h2 hd, ?_⟩⟩⟩
  exact (storeInv_create s hI name ic plate unit).1

/-- Witness for C1: registering Bob with Alice's identity number (and a
fresh plate) into `db1` fails naming the IC number, and uniqueness holds
in `db1`. -/
theorem claim_register_uniqueness_witness :
    db1.create_visitor "Bob" "901231145678" "ABC999" "A-2-02" =
      (⟨"Visitor with this IC number already exists", none, false⟩, db1)
    ∧ uniqueFields db1.visitors := by
  have h := claim_register_uniqueness db1 db1_reachable "Bob" "901231145678" "ABC999" "A-2-02"
  refine ⟨?_, h.1⟩
  have hd : findDup db1.visitors (upperStr "901231145678") (upperStr "ABC999") = some vAlice := by
    decide
  have he := (h.2 (by decide) (by decide)).1 vAlice hd
  rw [he]
  decide

/-- Counterexample to C2: in `db1` the record 0 already has status
`"active"`, yet updating it to `"active"` returns exactly the same
success result as updating it to `"left"` — the manager exposes no
`changed = false` outcome for a found, no-op update. -/
theorem claim_update_noop_cex :
    (db1.update_visitor_status (some 0) "active").1 =
        (db1.update_visitor_status (some 0) "left").1
    ∧ (db1.update_visitor_status (some 0) "active").1 =
        ⟨"Visitor status updated successfully", none, true⟩
    ∧ vAlice ∈ db1.visitors ∧ vAlice.vid = 0 ∧ vAlice.status = "active" := by
  decide

/-- C2 as amended: an update of an existing record reports the same
success result whether or not the requested status equals the current
one (the `$set` always also rewrites `last_updated`), and only an id
matching no record yields the distinct not-found failure result. -/
theorem claim_update_noop (s : DB) (h : Reachable s) (r : Visitor)
    (hr : r ∈ s.visitors) (st : String) :
    (s.update_visitor_status (some r.vid) r.status).1 =
        (s.update_visitor_status (some r.vid) st).1
    ∧ (s.update_visitor_status (some r.vid) r.status).1.success = true
    ∧ (∀ oid, (∀ x ∈ s.visitors, x.vid ≠ oid) →
        (s.update_visitor_status (some oid) st).1 =
          ⟨"Visitor not found or status already set.", none, false⟩) := by
  have hI := reachable_storeInv s h
  have h1 := update_exists_result s hI.2.2.2 r hr r.status
  have h2 := update_exists_result s hI.2.2.2 r hr st
  exact ⟨by rw [h1, h2], by rw [h1], fun oid hc => update_missing_result s oid st hc⟩

/-- Witness for the amended C2 at `db1`. -/
theorem claim_update_noop_witness :
    (db1.update_visitor_status (some 0) "active").1 =
        (db1.update_visitor_status (some 0) "left").1
    ∧ (db1.update_visitor_status (some 0) "active").1.success = true
    ∧ (db1.update_visitor_status (some 99) "left").1 =
        ⟨"Visitor not found or status already set.", none, false⟩ := by
  have h := claim_update_noop db1 db1_reachable vAlice (by decide) "left"
  exact ⟨h.1, h.2.1, h.2.2 99 (by decide)⟩

/-- C10: updating an existing record rewrites `status` and `last_updated`
together (to the current clock), the store therefore always reports the
document as modified and the manager returns success even when the
requested status equals the current one; the failure branch is reached
exactly when no document matches the id. -/
theorem claim_update_always_modifies (s : DB) (h : Reachable s) (r : Visitor)
    (hr : r ∈ s.visitors) (st : String) :
    (s.update_visitor_status (some r.vid) st).1 =
        ⟨"Visitor status updated successfully", none, true⟩
    ∧ (s.update_visitor_status (some r.vid) st).2.visitors =
        s.visitors.map (applyStatus r.vid st s.clock)
    ∧ (∀ oid, (∀ x ∈ s.visitors, x.vid ≠ oid) →
        (s.update_visitor_status (some oid) st).1 =
          ⟨"Visitor not found or status already set.", none, false⟩) := by
  have hI := reachable_storeInv s h
  refine ⟨update_exists_result s hI.2.2.2 r hr st, ?_,
    fun oid hc => update_missing_result s oid st hc⟩
  rw [update_state]

/-- Witness for C10: a same-status update of record 0 in `db1` succeeds
and rewrites `last_updated` to the current clock. -/
theorem claim_update_always_modifies_witness :
    (db1.update_visitor_status (some 0) "active").1 =
        ⟨"Visitor status updated successfully", none, true⟩
    ∧ (db1.update_visitor_status (some 0) "active").2.visitors =
        [⟨0, "Alice", "901231145678", "JOM1234", "B-1-01", 0, "active", some 1⟩] := by
  have h := claim_update_always_modifies db1 db1_reachable vAlice (by decide) "active"
  refine ⟨h.1, ?_⟩
  have h2 : (db1.update_visitor_status (some 0) "active").2.visitors =
      List.map (applyStatus vAlice.vid "active" db1.clock) db1.visitors := h.2.1
  rw [h2]
  decide

/-- Counterexample to C4: the manager accepts the status `"garbage"` for
an existing record — no `ValidationError`, the write succeeds and the
stored status becomes `"garbage"`. -/
theorem claim_status_validation_cex :
    (db1.update_visitor_status (some 0) "garbage").1.success = true
    ∧ (db1.update_visitor_status (some 0) "garbage").2.visitors.map Visitor.status
        = ["garbage"] := by
  decide

/-- C4 as amended: `update_visitor_status` performs no validation of
`new_status`; any string written for an existing record succeeds and is
stored verbatim, so statuses outside `{active, left}` are reachable
through the manager (the `{active, left}` restriction lives only in the
callers). -/
theorem claim_status_validation (s : DB) (h : Reachable s) (r : Visitor)
    (hr : r ∈ s.visitors) (st : String) :
    (s.update_visitor_status (some r.vid) st).1.success = true
    ∧ ∃ x ∈ (s.update_visitor_status (some r.vid) st).2.visitors,
        x.vid = r.vid ∧ x.status = st := by
  have hI := reachable_storeInv s h
  have h1 := update_exists_result s hI.2.2.2 r hr st
  refine ⟨by rw [h1], ?_⟩
  rw [update_state]
  refine ⟨applyStatus r.vid st s.clock r, List.mem_map_of_mem _ hr, ?_, ?_⟩
  · rw [applyStatus_vid]
  · unfold applyStatus
    simp

/-- Witness for the amended C4 at `db1` with status `"garbage"`. -/
theorem claim_status_validation_witness :
    (db1.update_visitor_status (some 0) "garbage").1.success = true
    ∧ ∃ x ∈ (db1.update_visitor_status (some 0) "garbage").2.visitors,
        x.vid = 0 ∧ x.status = "garbage" := by
  exact claim_status_validation db1 db1_reachable vAlice (by decide) "garbage"

/-- Counterexample to C3: with an empty collection at pre-check time but
Alice already inserted by a concurrent caller at insert time, registering
Bob with Alice's identity number passes the pre-check, loses the race at
the unique index, and the manager returns the generic
`"Database error: ..."` failure — not the `DuplicateError` detail the
pre-check would have produced. -/
theorem claim_race_duplicate_cex :
    create_visitor_core [] [vAlice] 1 1 "Bob" "901231145678" "ABC999" "A-2-02"
      = (⟨"Database error: E11000 duplicate key error collection: parking_manager_db.visitors",
          none, false⟩, [vAlice])
    ∧ findDup [] (upperStr "901231145678") (upperStr "ABC999") = none
    ∧ ("Database error: E11000 duplicate key error collection: parking_manager_db.visitors"
        : String) ≠ "Visitor with this IC number already exists" := by
  decide

/-- C3 as amended: a race-lost duplicate is caught — the store exception
never propagates — but the manager returns a failure whose detail is the
generic `"Database error: " + str(e)`, not the pre-check's
`DuplicateError` detail; the collection is left as the insert found it. -/
theorem claim_race_duplicate (pre ins : List Visitor) (nid clk : Nat)
    (name ic plate unit : String) (h1 : ic ≠ "") (h2 : plate ≠ "")
    (hd : findDup pre (upperStr ic) (upperStr plate) = none) (e : String)
    (he : insert_one ins (mkVisitor nid name ic plate unit clk) = Except.error e) :
    create_visitor_core pre ins nid clk name ic plate unit =
      (⟨"Database error: " ++ e, none, false⟩, ins) := by
  simp [create_visitor_core, hd, h1, h2, he]

/-- Witness for the amended C3 at the concrete race of the
counterexample. -/
theorem claim_race_duplicate_witness :
    create_visitor_core [] [vAlice] 1 1 "Bob" "901231145678" "ABC999" "A-2-02"
      = (⟨"Database error: E11000 duplicate key error collection: parking_manager_db.visitors",
          none, false⟩, [vAlice]) := by
  exact claim_race_duplicate [] [vAlice] 1 1 "Bob" "901231145678" "ABC999" "A-2-02"
    (by decide) (by decide) (by decide)
    "E11000 duplicate key error collection: parking_manager_db.visitors" rfl

/-- Counterexample to C5: with no credential configured the greeting
query `"hello"` — a templated intent — receives the fixed unavailable
message, not its templated reply (the availability guard runs before
intent classification; moreover `chatbot.py` raises at import when
`GOOGLE_API_KEY` is unset, lines 17-18). -/
theorem claim_chat_unavailable_cex :
    classify_intent "hello" = ("greeting", none)
    ∧ get_response false stubTools okLlm "hello" = unavailableReply
    ∧ unavailableReply ≠ greetingReply := by
  decide

/-- C5 as amended: `get_response` never raises — with no credential every
query (templated intents included) returns the fixed unavailable message,
and with a credential an exception escaping the dispatch/model call is
returned as `"Error: " + str(e)` while a normal result is returned
as-is. -/
theorem claim_chat_never_raises (tb : Tools) (llm : String → Except String String)
    (q : String) :
    get_response false tb llm q = unavailableReply
    ∧ (∀ e, get_response_try tb llm q = Except.error e →
        get_response true tb llm q = "Error: " ++ e)
    ∧ (∀ r, get_response_try tb llm q = Except.ok r →
        get_response true tb llm q = r) := by
  refine ⟨rfl, ?_, ?_⟩
  · intro e he
    simp [get_response, he]
  · intro r hr
    simp [get_response, hr]

/-- Witness for the amended C5: a raising model backend degrades to an
`"Error: "` text, and unavailability yields the fixed message. -/
theorem claim_chat_never_raises_witness :
    get_response false stubTools errLlm "weather" = unavailableReply
    ∧ get_response true stubTools errLlm "weather" = "Error: boom" := by
  have h := claim_chat_never_raises stubTools errLlm "weather"
  exact ⟨h.1, h.2.1 "boom" rfl⟩

/-- Counterexample to C6: for `"search for Al"` the first token not in
the stop-word set and not purely numeric is `"Al"` (capitalized), yet the
classifier extracts no parameter, because the code additionally requires
`len(w) > 2`. -/
theorem claim_search_extraction_cex :
    classify_intent "search for Al" = ("search", none)
    ∧ claimSearchParam "search for Al" = some "Al" := by
  decide

/-- C6 as amended: `how_to` is checked before `search` (so
`"how can I search for a visitor"` is `how_to`), `"search for visitor
John"` extracts `"John"`, and in general the search parameter is the
capitalization of the first token of length at least 3 that is not in
the stop-word set and not purely numeric, absent when no such token
exists. -/
theorem claim_search_extraction (q : String)
    (h : (classify_intent q).1 = "search") :
    classify_intent "how can I search for a visitor" = ("how_to", none)
    ∧ classify_intent "search for visitor John" = ("search", some "John")
    ∧ (classify_intent q).2 = searchParam q := by
  refine ⟨by decide, by decide, ?_⟩
  unfold classify_intent at h ⊢
  dsimp only at h ⊢
  split_ifs at h ⊢ <;> first | rfl | simp at h

/-- Witness for the amended C6 at the query `"find visitor Bob"`. -/
theorem claim_search_extraction_witness :
    (classify_intent "find visitor Bob").1 = "search"
    ∧ (classify_intent "find visitor Bob").2 = searchParam "find visitor Bob" := by
  exact ⟨by decide, (claim_search_extraction "find visitor Bob" (by decide)).2.2⟩

/-- C7: `"show visitors for unit B-1-01"` classifies as `unit` with the
regex-extracted parameter `"B-1-01"`, while `"visitors"` alone classifies
as `list`. -/
theorem claim_unit_extraction :
    classify_intent "show visitors for unit B-1-01" = ("unit", some "B-1-01")
    ∧ classify_intent "visitors" = ("list", none) := by
  decide

/-- Exact characterization of the verdict `get_parking_summary` chooses:
FULL iff zero, LOW iff non-zero and below 20 (negative availability
included), AVAILABLE iff at least 20. -/
theorem summaryStatus_cases (a : Int) :
    (summaryStatus a = "🔴 PARKING FULL" ↔ a = 0)
    ∧ (summaryStatus a = "🟡 LOW AVAILABILITY" ↔ (a ≠ 0 ∧ a < 20))
    ∧ (summaryStatus a = "🟢 PARKING AVAILABLE" ↔ 20 ≤ a) := by
  unfold summaryStatus
  split_ifs with h1 h2
  · exact ⟨⟨fun _ => h1, fun _ => rfl⟩,
      ⟨fun hs => absurd hs (by decide), fun hc => absurd h1 hc.1⟩,
      ⟨fun hs => absurd hs (by decide), fun hc => absurd hc (by omega)⟩⟩
  · exact ⟨⟨fun hs => absurd hs (by decide), fun hc => absurd hc h1⟩,
      ⟨fun _ => ⟨h1, h2⟩, fun _ => rfl⟩,
      ⟨fun hs => absurd hs (by decide), fun hc => absurd hc (by omega)⟩⟩
  · exact ⟨⟨fun hs => absurd hs (by decide), fun hc => absurd hc h1⟩,
      ⟨fun hs => absurd hs (by decide), fun hc => absurd hc.2 h2⟩,
      ⟨fun _ => by omega, fun _ => rfl⟩⟩

/-- Counterexample to C8: with 106 active cars the computed availability
is `-1`; the code reports LOW AVAILABILITY although `-1` is neither `0`
nor strictly between `0` and `20`, so "AVAILABLE in every other case"
fails. -/
theorem claim_summary_verdict_cex :
    get_parking_summary 106 = "🟡 LOW AVAILABILITY\n106 cars parked, -1 spots available"
    ∧ summaryStatus (105 - 106 : Int) = "🟡 LOW AVAILABILITY"
    ∧ ¬(0 < (105 - 106 : Int) ∧ (105 - 106 : Int) < 20)
    ∧ (105 - 106 : Int) ≠ 0 := by
  decide

/-- C8 as amended: the summary computes `available = 105 - active` and
returns FULL exactly when `available = 0`, LOW exactly when `available`
is non-zero and below 20 (so also for negative availability, when active
exceeds capacity), and AVAILABLE exactly when `available ≥ 20`, together
with the raw counts in the rendered line. -/
theorem claim_summary_verdict (active : Nat) :
    get_parking_summary active =
      summaryStatus (105 - (active : Int)) ++ "\n" ++ toString active
        ++ " cars parked, " ++ toString (105 - (active : Int)) ++ " spots available"
    ∧ (summaryStatus (105 - (active : Int)) = "🔴 PARKING FULL" ↔
        105 - (active : Int) = 0)
    ∧ (summaryStatus (105 - (active : Int)) = "🟡 LOW AVAILABILITY" ↔
        (105 - (active : Int) ≠ 0 ∧ 105 - (active : Int) < 20))
    ∧ (summaryStatus (105 - (active : Int)) = "🟢 PARKING AVAILABLE" ↔
        20 ≤ 105 - (active : Int)) := by
  exact ⟨rfl, summaryStatus_cases (105 - (active : Int))⟩

/-- C9: for a store holding exactly three active and two left records
(statuses as the manager writes them), the stats tool computes
`active = 3`, `left = 2`, `total = 5` and `available = 105 - 3 = 102`,
and renders those numbers. -/
theorem claim_stats_scenario (vs : List Visitor)
    (ha : vs.countP (fun v => v.status == "active") = 3)
    (hl : vs.countP (fun v => v.status == "left") = 2)
    (ht : vs.length = 5) :
    countStats vs = (3, 2, 5, 102)
    ∧ count_active_visitors vs =
        "Active visitors: 3\nTotal registered: 5\nAvailable spots: 102/105" := by
  have hc : countStats vs = (3, 2, 5, 102) := by
    unfold countStats
    rw [ha, hl, ht]
    norm_num
  refine ⟨hc, ?_⟩
  unfold count_active_visitors
  rw [hc]
  rfl

/-- Witness for C9 at a concrete five-record store. -/
theorem claim_stats_scenario_witness :
    countStats statsStore = (3, 2, 5, 102)
    ∧ count_active_visitors statsStore =
        "Active visitors: 3\nTotal registered: 5\nAvailable spots: 102/105" := by
  exact claim_stats_scenario statsStore (by decide) (by decide) (by decide)
